import Mathlib

/-!
Shallow embedding of `src/tui/light_windows.go` from codenio/fzf: the
Windows adapter of the light renderer.

The Windows console state (the input and output console modes), the
package-level generation counter `counter`, and the renderer's byte channel
`ttyinChannel` are folded into a single `LightRenderer` record.  Every
mutation of that shared state in the source is serialised by the renderer's
mutex (or happens before the background goroutine is spawned), so the
mutex-serialised steps of the program — the lifecycle calls and the body of
the background reader goroutine — become state transitions on the record,
and an arbitrary interleaving of those steps is a list of events.

Console modes are `uint32` bit masks; a bitwise or of flag values never
overflows, and the `uint64` generation counter is only ever incremented
(it can never realistically wrap), so plain `Nat` represents both
faithfully.  The byte channel is a bounded FIFO (capacity 1024); only its
FIFO contents matter to the properties below, so it is a `List Nat` of the
bytes in flight, oldest first.
-/

set_option autoImplicit false

namespace LightWin

/-- windows.ENABLE_PROCESSED_INPUT (0x0001). -/
def ENABLE_PROCESSED_INPUT : Nat := 0x0001

/-- windows.ENABLE_EXTENDED_FLAGS (0x0080). -/
def ENABLE_EXTENDED_FLAGS : Nat := 0x0080

/-- windows.ENABLE_VIRTUAL_TERMINAL_INPUT (0x0200). -/
def ENABLE_VIRTUAL_TERMINAL_INPUT : Nat := 0x0200

/-- windows.ENABLE_PROCESSED_OUTPUT (0x0001). -/
def ENABLE_PROCESSED_OUTPUT : Nat := 0x0001

/-- windows.ENABLE_VIRTUAL_TERMINAL_PROCESSING (0x0004). -/
def ENABLE_VIRTUAL_TERMINAL_PROCESSING : Nat := 0x0004

/-- windows.DISABLE_NEWLINE_AUTO_RETURN (0x0008). -/
def DISABLE_NEWLINE_AUTO_RETURN : Nat := 0x0008

/-- Package-level `consoleFlagsInput` from the source. -/
def consoleFlagsInput : Nat :=
  ENABLE_VIRTUAL_TERMINAL_INPUT ||| ENABLE_PROCESSED_INPUT ||| ENABLE_EXTENDED_FLAGS

/-- Package-level `consoleFlagsOutput` from the source. -/
def consoleFlagsOutput : Nat :=
  ENABLE_VIRTUAL_TERMINAL_PROCESSING ||| ENABLE_PROCESSED_OUTPUT ||| DISABLE_NEWLINE_AUTO_RETURN

/-- Package-level `timeoutInterval` (milliseconds) used by `getch(nonblock=true)`. -/
def timeoutInterval : Nat := 10

/--
The renderer together with the console state it controls.

`origStateInput` / `origStateOutput` are the fields of the same name,
captured by `initPlatform`.  `inMode` / `outMode` are the console's current
input and output modes (the state mutated by `windows.SetConsoleMode` on
`r.inHandle` / `r.outHandle`).  `counter` is the package-level generation
counter.  `ttyinChannel` is the FIFO contents of the byte channel, and
`queueId` is the identity of the channel object currently stored in
`r.ttyinChannel` (a fresh identity is produced by each `make(chan byte, 1024)`;
no operation other than `initPlatform` allocates a channel).
-/
structure LightRenderer where
  origStateInput : Nat
  origStateOutput : Nat
  inMode : Nat
  outMode : Nat
  counter : Nat
  ttyinChannel : List Nat
  queueId : Nat

/--
`LightRenderer.setupTerminal`: applies `consoleFlagsOutput` to the output
handle and `consoleFlagsInput` to the input handle, then spawns a background
reader goroutine that captures `current := counter`.  The spawned reader's
completed reads are modelled separately by `readerDeliver` (tagged with the
generation it captured, namely the `counter` of the state it was spawned in).
-/
def setupTerminal (r : LightRenderer) : LightRenderer :=
  { r with outMode := consoleFlagsOutput, inMode := consoleFlagsInput }

/--
`LightRenderer.restoreTerminal`: under the mutex, increments the generation
counter, re-applies the original input mode with
`ENABLE_VIRTUAL_TERMINAL_INPUT` forced on (so escape sequences still reach a
subsequently executed external command), and restores the original output
mode verbatim.
-/
def restoreTerminal (r : LightRenderer) : LightRenderer :=
  { r with
      counter := r.counter + 1
      inMode := r.origStateInput ||| ENABLE_VIRTUAL_TERMINAL_INPUT
      outMode := r.origStateOutput }

/--
The mutex-protected body of the background reader goroutine spawned by
`setupTerminal`, for one completed single-byte read: the reader holds the
captured generation `current`; if it no longer equals `counter` the reader
unlocks and terminates without delivering the byte; otherwise it sends the
byte into `ttyinChannel` and defensively re-applies `consoleFlagsInput`
(the PSReadline workaround in the source).
-/
def readerDeliver (r : LightRenderer) (current : Nat) (b : Nat) : LightRenderer :=
  if current ≠ r.counter then r
  else { r with ttyinChannel := r.ttyinChannel ++ [b], inMode := consoleFlagsInput }

/--
`LightRenderer.getch`: with `nonblock = true` the `select` returns a byte
from `ttyinChannel` if one is available, and `(0, false)` once the
`timeoutInterval`-millisecond timer fires with the channel still empty; with
`nonblock = false` it blocks on `<-r.ttyinChannel`.  The result is the
returned `(int, bool)` pair together with the renderer after the receive;
`none` models the blocking case in which no return happens from the state at
hand (the channel is empty and `nonblock = false`).
-/
def getch (r : LightRenderer) (nonblock : Bool) :
    Option ((Nat × Bool) × LightRenderer) :=
  match r.ttyinChannel with
  | b :: rest => some ((b, true), { r with ttyinChannel := rest })
  | [] => if nonblock then some ((0, false), r) else none

/--
The state produced by a successful `LightRenderer.initPlatform`:
`GetConsoleMode` read `outMode0` from the output handle into
`origStateOutput` and `inMode0` from the input handle into `origStateInput`,
`make(chan byte, 1024)` allocated a fresh channel with identity `qid`, and
`setupTerminal` ran.  `ctr` is the value the package-level generation
counter had on entry (initPlatform never touches it).
-/
def initPlatformOk (outMode0 inMode0 qid ctr : Nat) : LightRenderer :=
  setupTerminal
    { origStateInput := inMode0
      origStateOutput := outMode0
      inMode := inMode0
      outMode := outMode0
      counter := ctr
      ttyinChannel := []
      queueId := qid }

/--
`LightRenderer.initPlatform`.  The two `syscall.Open` errors are discarded
by the source (`outHandle, _ := ...`); a failed open surfaces as the
subsequent `GetConsoleMode` failing on the invalid handle.  `getOutMode` and
`getInMode` are the results of `GetConsoleMode` on the output and input
handles (`none` = the call failed, `some m` = it read mode `m`); the source
returns the first error, so a `none` result short-circuits, and on success
it allocates the channel and runs `setupTerminal`.  `none` here models the
non-nil error return.
-/
def initPlatform (getOutMode getInMode : Option Nat) (qid ctr : Nat) :
    Option LightRenderer :=
  match getOutMode with
  | none => none
  | some outMode0 =>
    match getInMode with
    | none => none
    | some inMode0 => some (initPlatformOk outMode0 inMode0 qid ctr)

/--
One mutex-serialised event of the running adapter: a `setupTerminal` call, a
`restoreTerminal` call, a completed read delivered by a background reader
that captured generation `g`, or a `getch(false)` receive by the consumer.
-/
inductive Ev where
  | setup : Ev
  | restore : Ev
  | deliver : Nat → Nat → Ev
  | consume : Ev

/-- The state transition of a single event. -/
def applyEv (r : LightRenderer) : Ev → LightRenderer
  | Ev.setup => setupTerminal r
  | Ev.restore => restoreTerminal r
  | Ev.deliver g b => readerDeliver r g b
  | Ev.consume =>
    match getch r false with
    | some (_, r1) => r1
    | none => r

/-- Run a list of events, oldest first. -/
def run (r : LightRenderer) : List Ev → LightRenderer
  | [] => r
  | e :: evs => run (applyEv r e) evs

/--
The sole background reader of the current generation delivering the byte
sequence `bs`, one completed read at a time, with no other event in between:
every delivery is tagged with the generation captured at spawn time, which
equals the current counter.
-/
def pushAll (r : LightRenderer) (bs : List Nat) : LightRenderer :=
  run r (bs.map fun b => Ev.deliver r.counter b)

/-- `n` successive `getch(nonblock=false)` calls, collecting the returned bytes. -/
def getchN : Nat → LightRenderer → List Nat
  | 0, _ => []
  | n + 1, r =>
    match getch r false with
    | some ((b, _), r1) => b :: getchN n r1
    | none => []

/--
The outcomes of the four console-mode calls `IsLightRendererSupported`
makes on `windows.Stderr`, in program order: the first `GetConsoleMode`
into `oldState`, the provisional `SetConsoleMode(oldState | VT)`, the second
`GetConsoleMode` into `checkState`, and the final `SetConsoleMode(oldState)`
revert.  `true` = the call returned nil.  A failed `SetConsoleMode` leaves
the mode unchanged; a successful one applies exactly the requested mode; a
failed `GetConsoleMode` changes nothing.
-/
structure ProbeCalls where
  getOk : Bool
  setOk : Bool
  checkOk : Bool
  revertOk : Bool

/--
`IsLightRendererSupported`, traced over the console's output mode: from the
entry mode `mode0` and the call outcomes `o`, the returned boolean and the
console output mode left behind at return.  The source's single
`if GetConsoleMode(...) != nil || (checkState & VT) != VT` is split into its
two short-circuit arms.
-/
def IsLightRendererSupported (mode0 : Nat) (o : ProbeCalls) : Bool × Nat :=
  if o.getOk = false then (false, mode0)
  else
    let oldState := mode0
    let canSetVt100 := o.setOk
    let mode1 :=
      if o.setOk then oldState ||| ENABLE_VIRTUAL_TERMINAL_PROCESSING else mode0
    if o.checkOk = false then (false, mode1)
    else
      let checkState := mode1
      if checkState &&& ENABLE_VIRTUAL_TERMINAL_PROCESSING ≠
          ENABLE_VIRTUAL_TERMINAL_PROCESSING then (false, mode1)
      else
        let mode2 := if o.revertOk then oldState else mode1
        (canSetVt100, mode2)

/-- The two themes `DefaultTheme` can return. -/
inductive ColorTheme where
  | Default16 : ColorTheme
  | Dark256 : ColorTheme
deriving DecidableEq

/--
`LightRenderer.DefaultTheme`: `supported` is the result of the
`IsLightRendererSupported()` call on the live console, `conEmuPID` is
`os.Getenv("ConEmuPID")` and `tcellTruecolor` is
`os.Getenv("TCELL_TRUECOLOR")`.
-/
def DefaultTheme (supported : Bool) (conEmuPID tcellTruecolor : String) : ColorTheme :=
  if supported = false ∨ conEmuPID ≠ "" ∨ tcellTruecolor = "disable" then
    ColorTheme.Default16
  else
    ColorTheme.Dark256

/-- windows.SmallRect: the visible window bounds of the screen buffer. -/
structure SmallRect where
  Left : Int
  Top : Int
  Right : Int
  Bottom : Int

/-- windows.Coord: a buffer coordinate. -/
structure Coord where
  X : Int
  Y : Int

/-- The two fields of `windows.ConsoleScreenBufferInfo` the adapter reads. -/
structure ConsoleScreenBufferInfo where
  Window : SmallRect
  CursorPosition : Coord

/--
Modelled from the spec: `TermSize` is the record
{lines, columns, x-offset, y-offset}; its struct declaration lives in a part
of the repository not present here, and the source constructs it
positionally as `TermSize{h, w, 0, 0}`.
-/
structure TermSize where
  Lines : Int
  Columns : Int
  XOffset : Int
  YOffset : Int

/--
`LightRenderer.Size`: `query` is the result of
`windows.GetConsoleScreenBufferInfo` on the output handle (`none` = the call
failed).  `envColumns` and `envLines` are the values of
`getEnv("COLUMNS", defaultWidth)` and `getEnv("LINES", defaultHeight)`, and
`maxHeightFunc` is the renderer's `maxHeightFunc` field.
-/
def Size (query : Option ConsoleScreenBufferInfo) (envColumns envLines : Int)
    (maxHeightFunc : Int → Int) : TermSize :=
  match query with
  | none =>
    { Lines := maxHeightFunc envLines, Columns := envColumns
      XOffset := 0, YOffset := 0 }
  | some bufferInfo =>
    { Lines := maxHeightFunc (bufferInfo.Window.Bottom - bufferInfo.Window.Top)
      Columns := bufferInfo.Window.Right - bufferInfo.Window.Left
      XOffset := 0, YOffset := 0 }

/--
`LightRenderer.findOffset`: returns `(-1, -1)` when
`GetConsoleScreenBufferInfo` fails, and the cursor position as
`(row, col) = (CursorPosition.Y, CursorPosition.X)` when it succeeds.
-/
def findOffset (query : Option ConsoleScreenBufferInfo) : Int × Int :=
  match query with
  | none => (-1, -1)
  | some bufferInfo => (bufferInfo.CursorPosition.Y, bufferInfo.CursorPosition.X)

/-! Helper lemmas about the event system. -/

/-- No event changes the saved modes or the channel identity. -/
theorem applyEv_preserves (r : LightRenderer) (e : Ev) :
    (applyEv r e).origStateInput = r.origStateInput ∧
    (applyEv r e).origStateOutput = r.origStateOutput ∧
    (applyEv r e).queueId = r.queueId := by
  cases e with
  | setup => exact ⟨rfl, rfl, rfl⟩
  | restore => exact ⟨rfl, rfl, rfl⟩
  | deliver g b =>
    by_cases h : g ≠ r.counter <;> simp [applyEv, readerDeliver, h]
  | consume =>
    cases h : r.ttyinChannel with
    | nil => simp [applyEv, getch, h]
    | cons b rest => simp [applyEv, getch, h]

/-- No run of events changes the saved modes or the channel identity. -/
theorem run_preserves (r : LightRenderer) (evs : List Ev) :
    (run r evs).origStateInput = r.origStateInput ∧
    (run r evs).origStateOutput = r.origStateOutput ∧
    (run r evs).queueId = r.queueId := by
  induction evs generalizing r with
  | nil => exact ⟨rfl, rfl, rfl⟩
  | cons e evs ih =>
    have h1 := applyEv_preserves r e
    have h2 := ih (applyEv r e)
    exact ⟨h2.1.trans h1.1, h2.2.1.trans h1.2.1, h2.2.2.trans h1.2.2⟩

/-- The generation counter never decreases across an event. -/
theorem applyEv_counter_le (r : LightRenderer) (e : Ev) :
    r.counter ≤ (applyEv r e).counter := by
  cases e with
  | setup => exact Nat.le_refl _
  | restore => exact Nat.le_succ _
  | deliver g b =>
    by_cases h : g ≠ r.counter <;> simp [applyEv, readerDeliver, h]
  | consume =>
    cases h : r.ttyinChannel with
    | nil => simp [applyEv, getch, h]
    | cons b rest => simp [applyEv, getch, h]

/-- The generation counter never decreases across a run of events. -/
theorem run_counter_le (r : LightRenderer) (evs : List Ev) :
    r.counter ≤ (run r evs).counter := by
  induction evs generalizing r with
  | nil => exact Nat.le_refl _
  | cons e evs ih => exact Nat.le_trans (applyEv_counter_le r e) (ih (applyEv r e))

/-- Delivering with the current generation appends the byte to the channel. -/
theorem readerDeliver_current (r : LightRenderer) (b : Nat) :
    readerDeliver r r.counter b
      = { r with ttyinChannel := r.ttyinChannel ++ [b], inMode := consoleFlagsInput } := by
  simp [readerDeliver]

/-- An uninterrupted burst of current-generation deliveries appends the
byte list to the channel and leaves the counter unchanged. -/
theorem run_delivers (bs : List Nat) (g : Nat) (r : LightRenderer)
    (h : r.counter = g) :
    (run r (bs.map fun b => Ev.deliver g b)).ttyinChannel = r.ttyinChannel ++ bs ∧
    (run r (bs.map fun b => Ev.deliver g b)).counter = g := by
  induction bs generalizing r with
  | nil => simpa [run] using h
  | cons b bs ih =>
    have hstep : applyEv r (Ev.deliver g b)
        = { r with ttyinChannel := r.ttyinChannel ++ [b], inMode := consoleFlagsInput } := by
      subst h
      exact readerDeliver_current r b
    have := ih { r with ttyinChannel := r.ttyinChannel ++ [b], inMode := consoleFlagsInput } h
    simpa [run, hstep] using this

/-- Draining a channel holding exactly `bs` with `bs.length` blocking
`getch` calls returns `bs`. -/
theorem getchN_full (bs : List Nat) (r : LightRenderer)
    (h : r.ttyinChannel = bs) :
    getchN bs.length r = bs := by
  induction bs generalizing r with
  | nil => simp [getchN]
  | cons b bs ih =>
    have := ih { r with ttyinChannel := bs } rfl
    simp [getchN, getch, h, this]

/-- Bit arithmetic: oring a flag in always leaves the flag set. -/
theorem or_and_self (a b : Nat) : (a ||| b) &&& b = b := by
  apply Nat.eq_of_testBit_eq
  intro i
  cases h1 : a.testBit i <;> cases h2 : b.testBit i <;>
    simp [Nat.testBit_and, Nat.testBit_or, h1, h2]

/-! Claim theorems. -/

/-- C1, counterexample: after a successful `initPlatform` that saw an input
mode without `ENABLE_VIRTUAL_TERMINAL_INPUT` (here input mode 0, output
mode 7), a single `restoreTerminal` leaves the console input mode different
from the captured `origStateInput`: the claim that both final modes equal
the captured modes fails. -/
theorem restore_input_mode_cex :
    (restoreTerminal (initPlatformOk 7 0 0 0)).inMode
      ≠ (initPlatformOk 7 0 0 0).origStateInput := by decide

/-- C1 (amended): after any sequence of adapter events following a
successful `initPlatform`, the final `restoreTerminal` leaves the output
mode equal to the captured `origStateOutput` verbatim, and the input mode
equal to the captured `origStateInput` with `ENABLE_VIRTUAL_TERMINAL_INPUT`
forced on (so it equals `origStateInput` exactly when that flag was already
present at capture time). -/
theorem restore_modes_after_run (outMode0 inMode0 qid ctr : Nat) (evs : List Ev) :
    (restoreTerminal (run (initPlatformOk outMode0 inMode0 qid ctr) evs)).outMode
        = outMode0 ∧
    (restoreTerminal (run (initPlatformOk outMode0 inMode0 qid ctr) evs)).inMode
        = inMode0 ||| ENABLE_VIRTUAL_TERMINAL_INPUT := by
  have h := run_preserves (initPlatformOk outMode0 inMode0 qid ctr) evs
  exact ⟨h.2.1, congrArg (fun m => m ||| ENABLE_VIRTUAL_TERMINAL_INPUT) h.1⟩

/-- C2: a background reader that captured its generation at state `r0` and
completes a read after a `restoreTerminal` (with arbitrary other events
before and after the restore) observes the generation mismatch and drops
the byte: the delivery step is the identity on the adapter state, so the
byte never enters `ttyinChannel` and is never observed by `getch`. -/
theorem stale_reader_delivery_dropped (r0 : LightRenderer) (evs1 evs2 : List Ev)
    (b : Nat) :
    readerDeliver (run (restoreTerminal (run r0 evs1)) evs2) r0.counter b
      = run (restoreTerminal (run r0 evs1)) evs2 := by
  have h1 : r0.counter ≤ (run r0 evs1).counter := run_counter_le r0 evs1
  have h2 : (restoreTerminal (run r0 evs1)).counter = (run r0 evs1).counter + 1 := rfl
  have h3 : (restoreTerminal (run r0 evs1)).counter
      ≤ (run (restoreTerminal (run r0 evs1)) evs2).counter :=
    run_counter_le _ evs2
  have hlt : r0.counter < (run (restoreTerminal (run r0 evs1)) evs2).counter := by
    omega
  simp [readerDeliver, Nat.ne_of_lt hlt]

/-- C3, counterexample: starting from output mode 0, when the provisional
`SetConsoleMode` succeeds but the second `GetConsoleMode` then fails, the
probe returns early without reverting and leaves the console output mode
with `ENABLE_VIRTUAL_TERMINAL_PROCESSING` set, different from the mode read
at entry. -/
theorem probe_side_effect_cex :
    (IsLightRendererSupported 0 ⟨true, true, false, true⟩).2 ≠ 0 := by decide

/-- C3 (amended): the probe leaves the console output mode equal to the
mode read at entry whenever all four console-mode calls succeed, and also
whenever the initial read fails or the provisional set fails (the mode was
never changed); but when the provisional set succeeds and a later call
fails, the mode can be left altered, as the counterexample shows. -/
theorem probe_mode_restored (mode0 : Nat) (o : ProbeCalls) :
    (o.getOk = true ∧ o.setOk = true ∧ o.checkOk = true ∧ o.revertOk = true →
      (IsLightRendererSupported mode0 o).2 = mode0) ∧
    (o.getOk = false → (IsLightRendererSupported mode0 o).2 = mode0) ∧
    (o.setOk = false → (IsLightRendererSupported mode0 o).2 = mode0) := by
  obtain ⟨g, s, c, v⟩ := o
  refine ⟨?_, ?_, ?_⟩
  · rintro ⟨hg, hs, hc, hv⟩
    subst hg; subst hs; subst hc; subst hv
    simp [IsLightRendererSupported, or_and_self]
  · intro hg
    subst hg
    simp [IsLightRendererSupported]
  · intro hs
    subst hs
    by_cases hm : mode0 &&& ENABLE_VIRTUAL_TERMINAL_PROCESSING
        = ENABLE_VIRTUAL_TERMINAL_PROCESSING <;>
      cases g <;> cases c <;> cases v <;>
        simp [IsLightRendererSupported, hm]

/-- C3 witness: the amended theorem at output mode 0 with all four calls
succeeding. -/
theorem probe_mode_restored_witness :
    (IsLightRendererSupported 0 ⟨true, true, true, true⟩).2 = 0 :=
  (probe_mode_restored 0 ⟨true, true, true, true⟩).1 ⟨rfl, rfl, rfl, rfl⟩

/-- C4: `getch(nonblock=true)` returns `(0, false)` when the timer fires
with the channel still empty, and `(b, true)` when byte `b` is at the head
of the channel; `getch(nonblock=false)` never returns with `ok = false` —
on an empty channel it blocks (no return), otherwise it returns the head
byte with `ok = true`. -/
theorem getch_nonblock_spec (r : LightRenderer) :
    (r.ttyinChannel = [] → getch r true = some ((0, false), r)) ∧
    (∀ b rest, r.ttyinChannel = b :: rest →
      getch r true = some ((b, true), { r with ttyinChannel := rest })) ∧
    (∀ res, getch r false = some res → res.1.2 = true) := by
  refine ⟨?_, ?_, ?_⟩
  · intro h
    simp [getch, h]
  · intro b rest h
    simp [getch, h]
  · intro res h
    cases hq : r.ttyinChannel with
    | nil => simp [getch, hq] at h
    | cons b rest =>
      simp [getch, hq] at h
      rw [← h]

/-- C4 witness: on a freshly initialised renderer (empty channel) the
nonblocking call returns `(0, false)`. -/
theorem getch_nonblock_spec_witness :
    getch (initPlatformOk 7 3 0 0) true = some ((0, false), initPlatformOk 7 3 0 0) :=
  (getch_nonblock_spec (initPlatformOk 7 3 0 0)).1 rfl

/-- C5: starting from an empty channel, if the current-generation reader
delivers the byte list `bs`, then `bs.length` successive
`getch(nonblock=false)` calls return exactly `bs`, in order (end-to-end
FIFO); in particular delivering `[0x1B, 0x5B, 0x41]` and reading three
times yields those bytes in that order (see the witness). -/
theorem getch_fifo (r : LightRenderer) (bs : List Nat)
    (h : r.ttyinChannel = []) :
    getchN bs.length (pushAll r bs) = bs := by
  apply getchN_full
  unfold pushAll
  rw [(run_delivers bs r.counter r rfl).1, h]
  simp

/-- C5 witness: the escape-sequence scenario `0x1B '[' 'A'` = `[27, 91, 65]`. -/
theorem getch_fifo_witness :
    getchN 3 (pushAll (initPlatformOk 7 3 0 0) [27, 91, 65]) = [27, 91, 65] :=
  getch_fifo (initPlatformOk 7 3 0 0) [27, 91, 65] rfl

/-- C6: `initPlatform` returns a non-nil error exactly when
`GetConsoleMode` fails on the output handle or on the input handle (a
failed `syscall.Open` is discarded and surfaces as the `GetConsoleMode`
failure on the invalid handle); otherwise it returns nil. -/
theorem initPlatform_error_iff_mode_read_fails
    (getOutMode getInMode : Option Nat) (qid ctr : Nat) :
    (initPlatform getOutMode getInMode qid ctr).isNone
      = (getOutMode.isNone || getInMode.isNone) := by
  cases getOutMode <;> cases getInMode <;> rfl

/-- C7, counterexample: across an enter → restore → enter cycle after one
`initPlatform`, the second cycle's consumer reads from the very same
channel as the first cycle's — the channel identities are equal, not
distinct as the claim states. -/
theorem queue_reused_across_cycles_cex :
    (setupTerminal (restoreTerminal (initPlatformOk 7 3 0 0))).queueId
      = (initPlatformOk 7 3 0 0).queueId := rfl

/-- C7 (amended): the `ttyinChannel` queue is allocated exactly once, by
`initPlatform`; `setupTerminal` and `restoreTerminal` never create or
retire a queue, so every later enter/restore cycle uses the queue identity
`qid` allocated at `initPlatform`. -/
theorem queue_created_once_per_init (outMode0 inMode0 qid ctr : Nat)
    (evs : List Ev) :
    (run (initPlatformOk outMode0 inMode0 qid ctr) evs).queueId = qid :=
  (run_preserves (initPlatformOk outMode0 inMode0 qid ctr) evs).2.2

/-- C8: whenever `ConEmuPID` is non-empty or `TCELL_TRUECOLOR` is
`"disable"`, `DefaultTheme` returns the conservative `Default16` tier, even
when the capability probe reports support. -/
theorem defaultTheme_forced_conservative (supported : Bool)
    (conEmuPID tcellTruecolor : String)
    (h : conEmuPID ≠ "" ∨ tcellTruecolor = "disable") :
    DefaultTheme supported conEmuPID tcellTruecolor = ColorTheme.Default16 := by
  unfold DefaultTheme
  exact if_pos (Or.inr h)

/-- C8 witness: probe succeeding, `ConEmuPID = "1234"`. -/
theorem defaultTheme_forced_conservative_witness :
    DefaultTheme true "1234" "" = ColorTheme.Default16 :=
  defaultTheme_forced_conservative true "1234" "" (Or.inl (by decide))

/-- C9: when the screen-buffer-info query fails, `findOffset` returns the
sentinel `(-1, -1)` and `Size` returns the COLUMNS environment/default
value as width and `maxHeightFunc` of the LINES environment/default value
as height; when the query succeeds, `findOffset` returns the cursor
position `(row, col)`. -/
theorem geometry_fallback_and_offset (envColumns envLines : Int)
    (maxHeightFunc : Int → Int) (bufferInfo : ConsoleScreenBufferInfo) :
    findOffset none = (-1, -1) ∧
    (Size none envColumns envLines maxHeightFunc).Columns = envColumns ∧
    (Size none envColumns envLines maxHeightFunc).Lines = maxHeightFunc envLines ∧
    findOffset (some bufferInfo)
      = (bufferInfo.CursorPosition.Y, bufferInfo.CursorPosition.X) :=
  ⟨rfl, rfl, rfl, rfl⟩

/-- C10: for every outcome of the geometry query, the `TermSize` returned
by `Size` has both offset fields equal to 0. -/
theorem size_offsets_zero (query : Option ConsoleScreenBufferInfo)
    (envColumns envLines : Int) (maxHeightFunc : Int → Int) :
    (Size query envColumns envLines maxHeightFunc).XOffset = 0 ∧
    (Size query envColumns envLines maxHeightFunc).YOffset = 0 := by
  cases query <;> exact ⟨rfl, rfl⟩

end LightWin
